import Mathlib

/-!
Verification of the VoiceTrans audio segmentation and translation pipeline.

The definitions below are a shallow embedding of the Python sources:
* `segStep` / `segRun` embed the VAD utterance segmenter of
  `src/voicetrans/app.py`, `FireworksVoiceTranslator.process_audio`
  (frames / silent_chunks / speech_chunks / recording_chunks loop).
* `dequeAppend` / `historyRun` embed the bounded history
  `deque(maxlen=100)` of `FireworksVoiceTranslator.__init__` together
  with the single `self.history.append(entry)` call site.
* `clearSession` embeds the `c` key handler of
  `FireworksVoiceTranslator.run` (history.clear plus zeroing of the
  seven listed stats keys).
* `cliTranslateStep` embeds the translation fallback of
  `FireworksVoiceTranslator.transcribe_with_fireworks` together with
  `_translate_text`.
* `translateText`, `processParallel`, `transcribeAudio`, `processChunk`
  embed `src/web_app/backend/services/translation.py`,
  `services/transcription.py` and
  `services/streaming.py::StreamingService.process_audio_chunk`.

Machine integers of the source are modelled as `Nat`; the two float
comparisons of the segmenter (`recording_chunks * 480 / 16000 >
max_recording_duration` and `len(frames) * 480 / 16000 < 0.5`) are
rendered as the exact rational comparisons `3 * rec > 100 * maxDur` and
`3 * n < 50`, which agree with the Python float comparisons on every
machine integer input (480 / 16000 = 3 / 100, and neither bound is ever
hit exactly because 500 and 50 are not multiples of 3).
-/

set_option maxRecDepth 100000

/-- Sensitivity profile: the four tunables set by
`FireworksVoiceTranslator.adjust_sensitivity` (and `__init__`):
`silence_threshold`, `min_speech_chunks`, `max_recording_duration`
(seconds), `speech_timeout` (frames). -/
structure Profile where
  silenceThreshold : Nat
  minSpeech : Nat
  maxDurSecs : Nat
  speechTimeout : Nat
deriving DecidableEq

/-- Balanced profile: `silence_threshold = 25`, `min_speech_chunks = 10`,
`max_recording_duration = 5`, `speech_timeout = 100` (both in `__init__`
and in the `'0'` branch of `adjust_sensitivity`). -/
def balanced : Profile := ⟨25, 10, 5, 100⟩

/-- Mutable state of the `process_audio` loop: the buffered frames (each
frame recorded by its VAD classification, `true` = speech) and the three
counters. -/
structure SegState where
  frames : List Bool
  silentChunks : Nat
  speechChunks : Nat
  recordingChunks : Nat
deriving DecidableEq

/-- Initial segmenter state: `frames = []`, all counters zero. -/
def initSeg : SegState := ⟨[], 0, 0, 0⟩

/-- Which branch of `process_audio` closed an utterance buffer: the
natural-pause branch (`silent_chunks > silence_threshold`) or the
force-close branch (max duration / speech timeout). -/
inductive ClosePath where
  | pause : ClosePath
  | force : ClosePath
deriving DecidableEq

/-- One emitted utterance buffer together with the branch that closed
it. `buf` lists the VAD classification of every frame handed to
`transcribe_with_fireworks`, in order. -/
structure Emit where
  path : ClosePath
  buf : List Bool
deriving DecidableEq

/-- One iteration of the `process_audio` loop on a frame classified
`isSpeech` (the combined VAD-and-amplitude decision). Returns the next
state and the buffers emitted (at most one). Mirrors the source line by
line: the speech branch appends, zeroes `silent_chunks`, bumps the two
counters, then force-closes when `recording_chunks * 480 / 16000 >
max_recording_duration` or `speech_chunks >= speech_timeout`, emitting
only when `len(frames) > min_speech_chunks`; the silence branch (taken
only when `frames` is nonempty) appends the silent frame, bumps
`silent_chunks`, and on `silent_chunks > silence_threshold` emits when
`len(frames) > min_speech_chunks` and the duration
`len(frames) * 480 / 16000` is at least half a second, discarding
otherwise; silence in the idle state is dropped. -/
def segStep (p : Profile) (s : SegState) (isSpeech : Bool) : SegState × List Emit :=
  if isSpeech then
    let frames := s.frames ++ [true]
    let speech := s.speechChunks + 1
    let recd := s.recordingChunks + 1
    if 3 * recd > 100 * p.maxDurSecs ∨ speech ≥ p.speechTimeout then
      (⟨[], 0, 0, 0⟩,
        if frames.length > p.minSpeech then [⟨ClosePath.force, frames⟩] else [])
    else
      (⟨frames, 0, speech, recd⟩, [])
  else if s.frames ≠ [] then
    let frames := s.frames ++ [false]
    let silent := s.silentChunks + 1
    if silent > p.silenceThreshold then
      if frames.length > p.minSpeech then
        if 3 * frames.length < 50 then
          (⟨[], 0, 0, 0⟩, [])
        else
          (⟨[], 0, 0, 0⟩, [⟨ClosePath.pause, frames⟩])
      else
        (⟨[], 0, 0, 0⟩, [])
    else
      (⟨frames, silent, s.speechChunks, s.recordingChunks⟩, [])
  else
    (s, [])

/-- Run the segmenter over a whole classified frame sequence from the
initial state, accumulating every emitted buffer in order. -/
def segRun (p : Profile) (input : List Bool) : SegState × List Emit :=
  input.foldl (fun acc b =>
    let r := segStep p acc.1 b
    (r.1, acc.2 ++ r.2)) (initSeg, [])

/-- The buffers emitted while processing `input`. -/
def segEmits (p : Profile) (input : List Bool) : List Emit :=
  (segRun p input).2

/-- The segmenter state after processing `input`. -/
def segFinal (p : Profile) (input : List Bool) : SegState :=
  (segRun p input).1

/-- Length of the maximal run of silence-classified frames at the end
of a buffer. -/
def trailingSilence (l : List Bool) : Nat :=
  (l.reverse.takeWhile (fun b => !b)).length

/-- Scenario B input: 5 speech frames then 30 silence frames. -/
def scenarioB : List Bool := List.replicate 5 true ++ List.replicate 30 false

/-- Scenario A input: 12 speech frames then 30 silence frames. -/
def scenarioA : List Bool := List.replicate 12 true ++ List.replicate 30 false

/-- Append to the bounded history `deque(maxlen=cap)`: when the deque
already holds `cap` entries, appending discards the oldest (leftmost)
entry. Embeds `self.history = deque(maxlen=100)` together with
`self.history.append(entry)`. -/
def dequeAppend {α : Type} (cap : Nat) (h : List α) (e : α) : List α :=
  if h.length = cap then h.tail ++ [e] else h ++ [e]

/-- The history obtained by appending each result exactly once, in
completion order, starting from the empty deque of capacity 100. -/
def historyRun {α : Type} (es : List α) : List α :=
  es.foldl (dequeAppend 100) []

/-- Session statistics dictionary of `FireworksVoiceTranslator.__init__`
(`self.stats`). Counter fields are `Nat`; latency and duration
accumulators are `Rat`; `languages_used` is kept as a list of codes. -/
structure Stats where
  totalTranslations : Nat
  totalWords : Nat
  avgLatency : Rat
  totalLatency : Rat
  sessionDuration : Nat
  languagesUsed : List String
  peakLatency : Rat
  minLatency : Rat
  apiCalls : Nat
  apiErrors : Nat
  totalAudioDuration : Rat
  fireworksSavings : Rat
  processingSpeed : Rat
deriving DecidableEq

/-- The `c` (clear) key handler of `FireworksVoiceTranslator.run`:
`self.history.clear()` followed by zeroing exactly the keys
`total_translations`, `total_words`, `total_latency`, `avg_latency`,
`api_calls`, `api_errors`, `fireworks_savings`. -/
def clearSession {α : Type} (s : Stats) (_history : List α) : Stats × List α :=
  ({ s with
      totalTranslations := 0
      totalWords := 0
      totalLatency := 0
      avgLatency := 0
      apiCalls := 0
      apiErrors := 0
      fireworksSavings := 0 }, [])

/-- Outcome of one attempted provider translation call in the CLI: a
successful translation, a provider error, or a hit of the 3-second
`future.result(timeout=3)` bound. -/
inductive TranslateOutcome where
  | done : String → TranslateOutcome
  | err : TranslateOutcome
  | timeout : TranslateOutcome
deriving DecidableEq

/-- The translation step of
`FireworksVoiceTranslator.transcribe_with_fireworks`: `translated`
starts as the transcribed `text`; when an OpenAI client is configured
the translation future is awaited with a 3 s timeout, and any exception
or timeout falls back to `translated = text` (`_translate_text` itself
also swallows provider errors and returns `text`). Returns the
translated text and the increment applied to `stats['api_errors']` on
this path (the source increments nothing here). -/
def cliTranslateStep (hasOpenai : Bool) (text : String) (o : TranslateOutcome) :
    String × Nat :=
  if hasOpenai then
    match o with
    | TranslateOutcome.done t => (t, 0)
    | TranslateOutcome.err => (text, 0)
    | TranslateOutcome.timeout => (text, 0)
  else (text, 0)

/-- Provider call counters for the web backend embedding; one increment
per provider invocation (`transcriptions.create`,
`generate_content` for detection, `generate_content` for translation). -/
structure Calls where
  transcribe : Nat
  detect : Nat
  translate : Nat
deriving DecidableEq

/-- The `self.stats` dictionary of `TranscriptionService`. -/
structure TrStats where
  total : Nat
  success : Nat
  failed : Nat
  hits : Nat
  misses : Nat
deriving DecidableEq

/-- The `self.stats` dictionary of `TranslationService`. -/
structure TlStats where
  total : Nat
  success : Nat
  failed : Nat
  hits : Nat
  misses : Nat
  skipped : Nat
deriving DecidableEq

/-- Combined mutable state of the web backend services: the two caches
(association lists keyed by audio bytes and by `(text, target)`, each
value paired with its insertion timestamp), the two stats dictionaries,
the provider call counters, and `StreamingService.stats['total_errors']`. -/
structure SvcState where
  transCache : List (List Nat × String × Nat)
  translCache : List ((String × String) × String × Nat)
  trStats : TrStats
  tlStats : TlStats
  calls : Calls
  totalErrors : Nat
deriving DecidableEq

/-- Fresh service state: empty caches, all counters zero. -/
def SvcState.init : SvcState :=
  ⟨[], [], ⟨0, 0, 0, 0, 0⟩, ⟨0, 0, 0, 0, 0, 0⟩, ⟨0, 0, 0⟩, 0⟩

/-- Failure kind of one transcription provider call:
`APIConnectionError` / `RateLimitError` are retried by the tenacity
wrapper of `transcribe_audio` and are re-raised without touching
`failed_requests`; `APIError` and every other exception bump
`failed_requests` and are not retried. -/
inductive TrError where
  | retryable : TrError
  | fatal : TrError
deriving DecidableEq

/-- Environment of the web backend: the `settings` values
(`enable_translation_cache`, `cache_ttl`, `max_retries`), whether each
client is initialized, and the three provider capabilities together
with the voice-activity heuristic, modelled as deterministic oracles
(an error result means the provider call raised). -/
structure Env where
  enableCache : Bool
  cacheTTL : Nat
  maxRetries : Nat
  transcInit : Bool
  translInit : Bool
  hasVoice : List Nat → Bool
  transcribe : List Nat → Except TrError String
  detect : String → Option String
  translate : String → String → Option String

/-- Cache read of `_get_cached_transcription` / `_get_cached_translation`:
returns the cached value (when caching is enabled, the key is present
and its age `now - timestamp` is below the TTL), the possibly pruned
cache (a stale entry is deleted), and the `cache_hits` / `cache_misses`
increments; a disabled cache returns `None` without touching the stats.
Note the helper returns the raw string — even an empty one, with
`cache_hits` bumped — and the caller then tests Python truthiness
(`if cached:`), so the empty-string dispatch lives in the callers
below. -/
def cacheLookup {κ : Type} [DecidableEq κ] (enable : Bool) (ttl now : Nat)
    (cache : List (κ × String × Nat)) (key : κ) :
    Option String × List (κ × String × Nat) × Bool × Bool :=
  if enable then
    match cache.find? (fun e => decide (e.1 = key)) with
    | some e =>
        if now - e.2.2 < ttl then (some e.2.1, cache, true, false)
        else (none, cache.filter (fun e2 => !(decide (e2.1 = key))), false, true)
    | none => (none, cache, false, true)
  else (none, cache, false, false)

/-- Insert an entry keeping the list ordered by ascending timestamp
(used only by the over-1000 eviction of `_cache_transcription` /
`_cache_translation`). -/
def insertByTs {κ : Type} (e : κ × String × Nat) :
    List (κ × String × Nat) → List (κ × String × Nat)
  | [] => [e]
  | x :: xs => if e.2.2 ≤ x.2.2 then e :: x :: xs else x :: insertByTs e xs

/-- Sort cache entries by ascending timestamp. -/
def sortByTs {κ : Type} (l : List (κ × String × Nat)) : List (κ × String × Nat) :=
  l.foldr insertByTs []

/-- Cache write of `_cache_transcription` / `_cache_translation`: when
caching is enabled, store the value under the key with the current
timestamp (overwriting any previous binding), and when the cache then
exceeds 1000 entries keep only the newest 1000 by timestamp. -/
def cacheInsert {κ : Type} [DecidableEq κ] (enable : Bool) (now : Nat)
    (cache : List (κ × String × Nat)) (key : κ) (v : String) :
    List (κ × String × Nat) :=
  if enable then
    let c := (key, v, now) :: cache.filter (fun e => !(decide (e.1 = key)))
    if c.length > 1000 then (sortByTs c).drop (c.length - 1000) else c
  else cache

/-- Executable model of Python `str.strip()` (which the services apply
to every provider string and use for blank checks): drop whitespace
from both ends. -/
def pyStrip (s : String) : String :=
  String.mk (((s.toList.dropWhile Char.isWhitespace).reverse.dropWhile
    Char.isWhitespace).reverse)

/-- `TranslationService.detect_language`: returns `None` without a
provider call when no client is configured; otherwise one provider call
whose failure is swallowed into `None`. -/
def detectLanguage (env : Env) (st : SvcState) (text : String) :
    Option String × SvcState :=
  if env.translInit then
    (env.detect text, { st with calls := { st.calls with detect := st.calls.detect + 1 } })
  else (none, st)

/-- `TranslationService.translate_text`: bumps `total_requests`, raises
(`Except.error`) when the client is missing, returns blank text as-is,
consults the cache, detects the source language when no hint is given,
skips translation when the source equals the target, and otherwise
calls the provider, caching and returning the stripped translation;
a provider failure bumps `failed_requests` and re-raises. The returned
Bool is the `was_cached` flag of the source. This is the provider half
of the body, entered when the cache produced nothing truthy. -/
def translateCore (env : Env) (st : SvcState) (text target : String)
    (sourceLang : Option String) (useCache : Bool) (now : Nat) :
    Except Unit (String × Bool) × SvcState :=
  let d := match sourceLang with
    | some s => (some s, st)
    | none => detectLanguage env st text
  let st := d.2
  if d.1 = some target then
    (Except.ok (text, false),
      { st with tlStats := { st.tlStats with skipped := st.tlStats.skipped + 1 } })
  else
    let st := { st with calls := { st.calls with translate := st.calls.translate + 1 } }
    match env.translate text target with
    | none =>
        (Except.error (),
          { st with tlStats := { st.tlStats with failed := st.tlStats.failed + 1 } })
    | some tr =>
        let trT := pyStrip tr
        let st := { st with translCache :=
          if useCache then cacheInsert env.enableCache now st.translCache (text, target) trT
          else st.translCache }
        (Except.ok (trT, false),
          { st with tlStats := { st.tlStats with success := st.tlStats.success + 1 } })

/-- One execution of the `translate_text` body: bump `total_requests`,
raise (`Except.error`) when the client is missing, return blank text
as-is, consult the cache — where, following Python truthiness
(`if cached:`), a cached empty string does not count as a hit for the
early return and the body falls through to the provider path — then
run `translateCore`. -/
def translateAttempt (env : Env) (st : SvcState) (text target : String)
    (sourceLang : Option String) (useCache : Bool) (now : Nat) :
    Except Unit (String × Bool) × SvcState :=
  let st := { st with tlStats := { st.tlStats with total := st.tlStats.total + 1 } }
  if ¬ env.translInit then (Except.error (), st)
  else if pyStrip text = "" then (Except.ok (text, false), st)
  else
    let lk := if useCache then
        cacheLookup env.enableCache env.cacheTTL now st.translCache (text, target)
      else (none, st.translCache, false, false)
    let st := { st with
      translCache := lk.2.1
      tlStats := { st.tlStats with
        hits := st.tlStats.hits + (if lk.2.2.1 then 1 else 0)
        misses := st.tlStats.misses + (if lk.2.2.2 then 1 else 0) } }
    match lk.1 with
    | some cached =>
        if cached = "" then translateCore env st text target sourceLang useCache now
        else (Except.ok (cached, true), st)
    | none => translateCore env st text target sourceLang useCache now

/-- The tenacity wrapper of `translate_text`
(`stop_after_attempt(settings.max_retries)`, `reraise=True`, no retry
filter, so every exception is retried): run the body, and while a
retry remains, re-run it on failure; `retriesLeft` counts the attempts
still allowed after the current one. -/
def retryAll {ρ : Type} (retriesLeft : Nat)
    (f : SvcState → Except Unit ρ × SvcState) (st : SvcState) :
    Except Unit ρ × SvcState :=
  match f st with
  | (Except.ok r, st2) => (Except.ok r, st2)
  | (Except.error e, st2) =>
    match retriesLeft with
    | 0 => (Except.error e, st2)
    | n + 1 => retryAll n f st2

/-- `TranslationService.translate_text` as invoked by its callers: the
decorated body, i.e. up to `settings.max_retries` executions of
`translateAttempt`, stopping at the first success and re-raising the
last failure. -/
def translateText (env : Env) (st : SvcState) (text target : String)
    (sourceLang : Option String) (useCache : Bool) (now : Nat) :
    Except Unit (String × Bool) × SvcState :=
  retryAll (env.maxRetries - 1)
    (fun s => translateAttempt env s text target sourceLang useCache now) st

/-- `TranslationService.process_parallel`: detect the language of the
transcription, then translate (with the detected language as hint)
exactly when the detected language differs from the target, and
otherwise return the transcription unchanged. -/
def processParallel (env : Env) (st : SvcState) (text target : String) (now : Nat) :
    Except Unit (String × Option String) × SvcState :=
  let d := detectLanguage env st text
  if d.1 ≠ some target then
    match translateText env d.2 text target d.1 true now with
    | (Except.ok r, st) => (Except.ok (r.1, d.1), st)
    | (Except.error e, st) => (Except.error e, st)
  else
    (Except.ok (text, d.1), d.2)

/-- Provider half of the `transcribe_audio` body, entered when the
cache produced nothing truthy: one provider call; a retryable failure
(`APIConnectionError` / `RateLimitError`) is re-raised untouched for
tenacity, an `APIError` or other exception bumps `failed_requests` and
re-raises, and a success caches and returns the stripped text. -/
def transcribeCore (env : Env) (st : SvcState) (audio : List Nat)
    (useCache : Bool) (now : Nat) : Except TrError String × SvcState :=
  let st := { st with calls := { st.calls with transcribe := st.calls.transcribe + 1 } }
  match env.transcribe audio with
  | Except.error TrError.retryable => (Except.error TrError.retryable, st)
  | Except.error TrError.fatal =>
      (Except.error TrError.fatal,
        { st with trStats := { st.trStats with failed := st.trStats.failed + 1 } })
  | Except.ok t =>
      let text := pyStrip t
      let st := { st with transCache :=
        if useCache then cacheInsert env.enableCache now st.transCache audio text
        else st.transCache }
      (Except.ok text, { st with trStats := { st.trStats with success := st.trStats.success + 1 } })

/-- One execution of the `transcribe_audio` body: bump
`total_requests`, raise when the client is missing (a `ValueError`,
which the retry filter does not retry, hence `fatal`), consult the
cache keyed by the audio bytes — a cached empty string is falsy under
`if cached:` and falls through to the provider path — then run
`transcribeCore`. -/
def transcribeAttempt (env : Env) (st : SvcState) (audio : List Nat)
    (useCache : Bool) (now : Nat) : Except TrError String × SvcState :=
  let st := { st with trStats := { st.trStats with total := st.trStats.total + 1 } }
  if ¬ env.transcInit then (Except.error TrError.fatal, st)
  else
    let lk := if useCache then
        cacheLookup env.enableCache env.cacheTTL now st.transCache audio
      else (none, st.transCache, false, false)
    let st := { st with
      transCache := lk.2.1
      trStats := { st.trStats with
        hits := st.trStats.hits + (if lk.2.2.1 then 1 else 0)
        misses := st.trStats.misses + (if lk.2.2.2 then 1 else 0) } }
    match lk.1 with
    | some cached =>
        if cached = "" then transcribeCore env st audio useCache now
        else (Except.ok cached, st)
    | none => transcribeCore env st audio useCache now

/-- The tenacity wrapper of `transcribe_audio`
(`stop_after_attempt(settings.max_retries)`, `reraise=True`,
`retry_if_exception_type((APIConnectionError, RateLimitError))`): only
retryable failures are re-run while a retry remains; fatal failures
propagate immediately. -/
def retryTransient (retriesLeft : Nat)
    (f : SvcState → Except TrError String × SvcState) (st : SvcState) :
    Except TrError String × SvcState :=
  match f st with
  | (Except.ok r, st2) => (Except.ok r, st2)
  | (Except.error TrError.fatal, st2) => (Except.error TrError.fatal, st2)
  | (Except.error TrError.retryable, st2) =>
    match retriesLeft with
    | 0 => (Except.error TrError.retryable, st2)
    | n + 1 => retryTransient n f st2

/-- `TranscriptionService.transcribe_audio` as invoked by its callers:
the decorated body, i.e. up to `settings.max_retries` executions of
`transcribeAttempt`, retrying only transient provider failures. -/
def transcribeAudio (env : Env) (st : SvcState) (audio : List Nat)
    (useCache : Bool) (now : Nat) : Except TrError String × SvcState :=
  retryTransient (env.maxRetries - 1)
    (fun s => transcribeAttempt env s audio useCache now) st

/-- The non-time fields of the `TranslationResponse` built by
`StreamingService.process_audio_chunk`. -/
structure Payload where
  transcription : String
  translation : String
  sourceLanguage : Option String
  targetLanguage : String
deriving DecidableEq

/-- `StreamingService.process_audio_chunk`: voice-activity gate,
transcription, empty-transcription short-circuit, then
`process_parallel`; any raised error is caught, bumps `total_errors`,
and yields no result. -/
def processChunk (env : Env) (st : SvcState) (audio : List Nat)
    (target : String) (now : Nat) : Option Payload × SvcState :=
  if ¬ env.hasVoice audio then (none, st)
  else
    match transcribeAudio env st audio true now with
    | (Except.error _, st) => (none, { st with totalErrors := st.totalErrors + 1 })
    | (Except.ok text, st) =>
      if pyStrip text = "" then (none, st)
      else
        match processParallel env st text target now with
        | (Except.error _, st) => (none, { st with totalErrors := st.totalErrors + 1 })
        | (Except.ok r, st) => (some ⟨text, r.1, r.2, target⟩, st)

/-- Concrete environment used for closed counterexamples: every
provider succeeds deterministically. -/
def envDemo : Env :=
  { enableCache := true
    cacheTTL := 3600
    maxRetries := 3
    transcInit := true
    translInit := true
    hasVoice := fun _ => true
    transcribe := fun _ => Except.ok "hello world"
    detect := fun _ => some "en"
    translate := fun _ _ => some "bonjour le monde" }

/-- Concrete environment whose translation provider always fails. -/
def envFail : Env :=
  { envDemo with translate := fun _ _ => none }

/-- Run the streaming pipeline twice on the same audio, the second run
starting from the state the first run left behind: returns both runs. -/
def runTwice (env : Env) (audio : List Nat) (target : String) (n1 n2 : Nat) :
    (Option Payload × SvcState) × (Option Payload × SvcState) :=
  let r1 := processChunk env SvcState.init audio target n1
  (r1, processChunk env r1.2 audio target n2)

/-- Reachability invariant of the `process_audio` loop: the counter
`silent_chunks` equals the length of the trailing silence run of the
buffered frames, and never exceeds `silence_threshold`. -/
def SegInv (p : Profile) (s : SegState) : Prop :=
  trailingSilence s.frames = s.silentChunks ∧ s.silentChunks ≤ p.silenceThreshold

/-- A buffer ending in a speech frame has no trailing silence. -/
theorem trailingSilence_append_true (l : List Bool) :
    trailingSilence (l ++ [true]) = 0 := by
  simp [trailingSilence, List.takeWhile_cons]

/-- Appending a silence frame extends the trailing silence run by one. -/
theorem trailingSilence_append_false (l : List Bool) :
    trailingSilence (l ++ [false]) = trailingSilence l + 1 := by
  simp [trailingSilence, List.takeWhile_cons]

/-- Every buffer emitted by a single segmenter step has strictly more
frames than `min_speech_chunks`: both close branches guard the emission
with `len(frames) > self.min_speech_chunks`. -/
theorem segStep_emit_gt_min (p : Profile) (s : SegState) (x : Bool) :
    ∀ e ∈ (segStep p s x).2, p.minSpeech < e.buf.length := by
  intro e he
  unfold segStep at he
  dsimp only at he
  repeat' split at he
  all_goals simp_all

/-- The invariant holds initially. -/
theorem segInv_init (p : Profile) : SegInv p initSeg := by
  constructor <;> simp [initSeg, trailingSilence]

/-- The invariant is preserved by every segmenter step. -/
theorem segInv_step (p : Profile) (s : SegState) (x : Bool) (h : SegInv p s) :
    SegInv p (segStep p s x).1 := by
  obtain ⟨h1, h2⟩ := h
  unfold segStep SegInv
  dsimp only
  repeat' split
  all_goals
    simp_all [trailingSilence_append_true, trailingSilence_append_false, trailingSilence]

/-- Under the invariant, a buffer emitted by the natural-pause branch
carries exactly `silence_threshold + 1` trailing silence frames: the
close fires on the first silence frame pushing `silent_chunks` strictly
past the threshold, and that frame was appended to the buffer first. -/
theorem segStep_pause_trailing (p : Profile) (s : SegState) (x : Bool)
    (h : SegInv p s) :
    ∀ e ∈ (segStep p s x).2, e.path = ClosePath.pause →
      trailingSilence e.buf = p.silenceThreshold + 1 := by
  obtain ⟨h1, h2⟩ := h
  intro e he hpath
  unfold segStep at he
  dsimp only at he
  repeat' split at he
  all_goals simp_all [trailingSilence_append_false]
  all_goals omega

/-- Propagate a per-step property of emitted buffers, together with the
state invariant, through the whole `process_audio` run. -/
theorem segRun_emit_prop (p : Profile) (P : Emit → Prop)
    (hstep : ∀ s x, SegInv p s → ∀ e ∈ (segStep p s x).2, P e) :
    ∀ (input : List Bool) (s : SegState) (acc : List Emit),
      SegInv p s → (∀ e ∈ acc, P e) →
      ∀ e ∈ (input.foldl (fun acc b =>
          let r := segStep p acc.1 b
          (r.1, acc.2 ++ r.2)) (s, acc)).2, P e := by
  intro input
  induction input with
  | nil =>
      intro s acc _ hacc e he
      simpa using hacc e he
  | cons b bs ih =>
      intro s acc hs hacc e he
      simp only [List.foldl_cons] at he
      refine ih (segStep p s b).1 (acc ++ (segStep p s b).2) (segInv_step p s b hs) ?_ e he
      intro e' he'
      rcases List.mem_append.mp he' with h | h
      · exact hacc e' h
      · exact hstep s b hs e' h

/-- C1 counterexample: with the Balanced profile, 5 speech frames
followed by 30 silence frames do NOT produce zero emissions — the
natural-pause close compares the total buffered frame count (5 speech
plus 26 retained silence frames = 31) against `min_speech_chunks = 10`,
so one buffer is emitted, refuting the claim at this concrete input. -/
theorem C1_counterexample : segEmits balanced scenarioB ≠ [] := by decide

/-- C1 (amended): with the Balanced profile, 5 speech frames followed by
30 silence frames emit exactly one utterance buffer, closed on the
natural-pause path, containing 31 frames: the 5 speech frames plus the
26 trailing silence frames retained up to the close. -/
theorem C1_amended :
    segEmits balanced scenarioB =
      [⟨ClosePath.pause, List.replicate 5 true ++ List.replicate 26 false⟩] ∧
    (List.replicate 5 true ++ List.replicate 26 false).length = 31 := by decide

/-- C2: for every sensitivity profile and every classified frame
sequence, each utterance buffer the segmenter emits — natural-pause or
force-close — contains strictly more than `min_speech_chunks` frames;
shorter buffers are only discarded, never emitted. -/
theorem C2_emitted_exceeds_minSpeech (p : Profile) (input : List Bool) :
    ∀ e ∈ segEmits p input, p.minSpeech < e.buf.length := by
  have h := segRun_emit_prop p (fun e => p.minSpeech < e.buf.length)
    (fun s x _ => segStep_emit_gt_min p s x) input initSeg []
    (segInv_init p) (by simp)
  simpa [segEmits, segRun] using h

/-- C2 witness: the buffer emitted for Scenario A is a member of the
emission list and has more than `min_speech_chunks = 10` frames. -/
theorem C2_witness :
    Emit.mk ClosePath.pause (List.replicate 12 true ++ List.replicate 26 false) ∈
      segEmits balanced scenarioA ∧
    balanced.minSpeech <
      (Emit.mk ClosePath.pause
        (List.replicate 12 true ++ List.replicate 26 false)).buf.length :=
  ⟨by decide, C2_emitted_exceeds_minSpeech balanced scenarioA _ (by decide)⟩

/-- C3 counterexample: with the Balanced profile, 12 speech frames
followed by 30 silence frames do NOT produce a 42-frame buffer — the
close fires on the 26th silence frame, so the emitted buffer has
12 + 26 = 38 frames, refuting the claim at this concrete input. -/
theorem C3_counterexample :
    ¬ (segEmits balanced scenarioA).map (fun e => e.buf.length) = [42] := by decide

/-- C3 (amended): with the Balanced profile, 12 speech frames followed
by 30 silence frames emit exactly one buffer, closed on the
natural-pause path, containing 38 frames (12 speech plus the 26 silence
frames retained up to the close; the last 4 silence frames arrive in the
idle state and are dropped). -/
theorem C3_amended :
    segEmits balanced scenarioA =
      [⟨ClosePath.pause, List.replicate 12 true ++ List.replicate 26 false⟩] ∧
    (List.replicate 12 true ++ List.replicate 26 false).length = 38 := by decide

/-- C4 counterexample: with the Balanced profile a continuous speech run
forces an emission well before frame 166 — 165 speech frames already
produce an emission, and the 200-frame run does not produce a single
166-frame buffer, refuting the claim at this concrete input. -/
theorem C4_counterexample :
    segEmits balanced (List.replicate 165 true) ≠ [] ∧
    ¬ (segEmits balanced (List.replicate 200 true)).map
        (fun e => e.buf.length) = [166] := by decide

/-- C4 (amended): with the Balanced profile (`speech_timeout = 100`
frames, which fires before the 5 s max-duration guard at frame 167), a
run of 200 speech frames forces an emission exactly at frame 100 and a
second one at frame 200, each buffer holding 100 frames on the
force-close path; no emission occurs during the first 99 frames, and the
segmenter starts a fresh buffer at frame 101. -/
theorem C4_amended :
    (segEmits balanced (List.replicate 200 true)).map
        (fun e => (e.path, e.buf.length)) =
      [(ClosePath.force, 100), (ClosePath.force, 100)] ∧
    segEmits balanced (List.replicate 99 true) = [] ∧
    (segFinal balanced (List.replicate 100 true)).frames = [] ∧
    (segFinal balanced (List.replicate 101 true)).frames = [true] := by decide

/-- C9: for every profile and every frame sequence, each buffer emitted
on the natural-pause path ends with exactly `silence_threshold + 1`
consecutive silence-classified frames: the close fires on the first
silence frame that makes the silent run strictly exceed the threshold,
and that frame is included in the emitted buffer. -/
theorem C9_pause_trailing_silence (p : Profile) (input : List Bool) :
    ∀ e ∈ segEmits p input, e.path = ClosePath.pause →
      trailingSilence e.buf = p.silenceThreshold + 1 := by
  have h := segRun_emit_prop p
    (fun e => e.path = ClosePath.pause →
      trailingSilence e.buf = p.silenceThreshold + 1)
    (fun s x hs => segStep_pause_trailing p s x hs) input initSeg []
    (segInv_init p) (by simp)
  simpa [segEmits, segRun] using h

/-- C9 witness: the Scenario A buffer is emitted on the natural-pause
path and ends with exactly 26 silence frames. -/
theorem C9_witness :
    Emit.mk ClosePath.pause (List.replicate 12 true ++ List.replicate 26 false) ∈
      segEmits balanced scenarioA ∧
    trailingSilence (Emit.mk ClosePath.pause
        (List.replicate 12 true ++ List.replicate 26 false)).buf =
      balanced.silenceThreshold + 1 :=
  ⟨by decide, C9_pause_trailing_silence balanced scenarioA _ (by decide) rfl⟩

/-- Appending to a deque holding at most 100 entries keeps it at or
below 100 entries. -/
theorem dequeAppend_length_le {α : Type} (h : List α) (e : α)
    (hh : h.length ≤ 100) : (dequeAppend 100 h e).length ≤ 100 := by
  unfold dequeAppend
  split_ifs with hfull
  · cases h with
    | nil => simp at hfull
    | cons a t => simp_all
  · simp
    omega

/-- Folding deque appends over a result sequence, starting from any
deque within capacity, keeps exactly the last 100 entries of the
concatenated sequence. -/
theorem foldl_dequeAppend {α : Type} (es : List α) :
    ∀ h : List α, h.length ≤ 100 →
      es.foldl (dequeAppend 100) h = (h ++ es).drop ((h ++ es).length - 100) := by
  induction es with
  | nil =>
      intro h hh
      simp [Nat.sub_eq_zero_of_le hh]
  | cons e es ih =>
      intro h hh
      rw [List.foldl_cons, ih (dequeAppend 100 h e) (dequeAppend_length_le h e hh)]
      unfold dequeAppend
      split_ifs with hfull
      · cases h with
        | nil => simp at hfull
        | cons a t =>
            simp only [List.length_cons] at hfull
            have hfull2 : t.length = 99 := by omega
            have hassoc : (t ++ [e]) ++ es = t ++ e :: es := by simp
            have hcons : (a :: t) ++ e :: es = a :: (t ++ e :: es) := by simp
            rw [List.tail_cons, hassoc, hcons]
            have h1 : (t ++ e :: es).length - 100 = es.length := by
              simp only [List.length_append, List.length_cons, hfull2]
              omega
            have h3 : (a :: (t ++ e :: es)).length - 100 = es.length + 1 := by
              simp only [List.length_append, List.length_cons, hfull2]
              omega
            rw [h1, h3, List.drop_succ_cons]
      · simp [List.append_assoc]
/-- C8: the results history is a bounded ring buffer of capacity 100 —
appending each result exactly once keeps the history at or below 100
entries, the history always equals the last (at most) 100 appended
results verbatim (so an appended entry is never mutated afterwards and
eviction is oldest-first), and an append onto a full deque drops exactly
the oldest entry. -/
theorem C8_history_ring_buffer (α : Type) (es : List α) :
    (historyRun es).length ≤ 100 ∧
    historyRun es = es.drop (es.length - 100) ∧
    (∀ (h : List α) (e : α), h.length = 100 →
      dequeAppend 100 h e = h.tail ++ [e]) := by
  have hrun : historyRun es = es.drop (es.length - 100) := by
    have h := foldl_dequeAppend es ([] : List α) (by simp)
    simpa [historyRun] using h
  refine ⟨?_, hrun, ?_⟩
  · rw [hrun]
    simp
    omega
  · intro h e hfull
    unfold dequeAppend
    rw [if_pos hfull]

/-- C8 witness: a full deque of 100 entries evicts its oldest entry on
append, and 150 appends leave at most 100 entries. -/
theorem C8_witness :
    dequeAppend 100 (List.range 100) 7 = (List.range 100).tail ++ [7] ∧
    (historyRun (List.range 150)).length ≤ 100 :=
  ⟨(C8_history_ring_buffer Nat (List.range 150)).2.2 (List.range 100) 7 (by simp),
   (C8_history_ring_buffer Nat (List.range 150)).1⟩

/-- C10: the session-clear command zeroes `total_translations`,
`total_words`, `total_latency`, `avg_latency`, `api_calls`,
`api_errors` and `fireworks_savings` and empties the history, while
`peak_latency`, `min_latency`, `total_audio_duration` and
`processing_speed` keep their prior values. -/
theorem C10_clear_session (α : Type) (s : Stats) (h : List α) :
    (clearSession s h).1.totalTranslations = 0 ∧
    (clearSession s h).1.totalWords = 0 ∧
    (clearSession s h).1.totalLatency = 0 ∧
    (clearSession s h).1.avgLatency = 0 ∧
    (clearSession s h).1.apiCalls = 0 ∧
    (clearSession s h).1.apiErrors = 0 ∧
    (clearSession s h).1.fireworksSavings = 0 ∧
    (clearSession s h).1.peakLatency = s.peakLatency ∧
    (clearSession s h).1.minLatency = s.minLatency ∧
    (clearSession s h).1.totalAudioDuration = s.totalAudioDuration ∧
    (clearSession s h).1.processingSpeed = s.processingSpeed ∧
    (clearSession s h).2 = [] := by
  simp [clearSession]

/-- C5 counterexample: in the CLI pipeline a translation timeout
returns the original text but leaves the error counter untouched — the
increment the claim requires does not happen. -/
theorem C5_counterexample :
    (cliTranslateStep true "hello" TranslateOutcome.timeout).1 = "hello" ∧
    ¬ 0 < (cliTranslateStep true "hello" TranslateOutcome.timeout).2 := by decide

/-- C5 (amended): when the Translate step fails or times out, the CLI
pipeline still returns a result whose translated text equals the
original transcribed text, but without incrementing its `api_errors`
counter; the web translation service instead re-raises rather than
degrading to the original text, with the tenacity wrapper re-running
the body on every exception, so a persistently failing provider bumps
`failed_requests` (and `total_requests`) once per attempt — three
times with the default `max_retries = 3`. -/
theorem C5_amended :
    (∀ (text : String) (o : TranslateOutcome),
      o = TranslateOutcome.err ∨ o = TranslateOutcome.timeout →
      cliTranslateStep true text o = (text, 0)) ∧
    (∀ (env : Env) (st : SvcState) (text target src : String) (now : Nat),
      env.maxRetries = 3 → env.translInit = true → pyStrip text ≠ "" →
      st.translCache = [] → src ≠ target → env.translate text target = none →
      (translateText env st text target (some src) true now).1 = Except.error () ∧
      (translateText env st text target (some src) true now).2.tlStats.failed =
        st.tlStats.failed + 3 ∧
      (translateText env st text target (some src) true now).2.tlStats.total =
        st.tlStats.total + 3) := by
  refine ⟨?_, ?_⟩
  · intro text o ho
    rcases ho with h | h <;> subst h <;> rfl
  · intro env st text target src now hmr hinit hne hcache hsrc htr
    cases henb : env.enableCache <;>
      simp [translateText, retryAll, translateAttempt, translateCore, cacheLookup,
        hmr, hinit, hne, hcache, hsrc, htr, henb]

/-- C5 witness: concrete persistently failing translation — the CLI
fallback returns the original with no counter change, and the web
service records one failed request per retry attempt (three in all)
and raises. -/
theorem C5_witness :
    cliTranslateStep true "hola" TranslateOutcome.err = ("hola", 0) ∧
    (translateText envFail SvcState.init "hola" "en" (some "es") true 0).1 =
      Except.error () ∧
    (translateText envFail SvcState.init "hola" "en" (some "es") true 0).2.tlStats.failed =
      SvcState.init.tlStats.failed + 3 :=
  ⟨C5_amended.1 "hola" TranslateOutcome.err (Or.inl rfl),
   (C5_amended.2 envFail SvcState.init "hola" "en" "es" 0 rfl rfl (by decide) rfl
      (by decide) rfl).1,
   (C5_amended.2 envFail SvcState.init "hola" "en" "es" 0 rfl rfl (by decide) rfl
      (by decide) rfl).2.1⟩

/-- C6: whenever the detected source language equals the target
language, `process_parallel` returns the transcription unchanged as the
translation and makes no Translate provider call. -/
theorem C6_same_language_skip (env : Env) (st : SvcState)
    (text target : String) (now : Nat)
    (hinit : env.translInit = true) (hdet : env.detect text = some target) :
    (processParallel env st text target now).1 = Except.ok (text, some target) ∧
    (processParallel env st text target now).2.calls.translate =
      st.calls.translate := by
  simp [processParallel, detectLanguage, hinit, hdet]

/-- C6 witness: a concrete same-language detection returns the text
unchanged with zero Translate calls. -/
theorem C6_witness :
    (processParallel envDemo SvcState.init "hello" "en" 0).1 =
      Except.ok ("hello", some "en") ∧
    (processParallel envDemo SvcState.init "hello" "en" 0).2.calls.translate =
      SvcState.init.calls.translate :=
  C6_same_language_skip envDemo SvcState.init "hello" "en" 0 rfl rfl

/-- C7 counterexample: re-running the streaming pipeline on
byte-identical audio with caching enabled and within the TTL returns
the identical payload, yet the second run still performs a provider
call — `detect_language` is uncached — so the total provider call count
strictly increases, refuting the claim that no second provider call is
made. -/
theorem C7_counterexample :
    (runTwice envDemo [1, 2, 3] "fr" 0 5).1.1.isSome ∧
    (runTwice envDemo [1, 2, 3] "fr" 0 5).2.1 =
      (runTwice envDemo [1, 2, 3] "fr" 0 5).1.1 ∧
    ¬ ((runTwice envDemo [1, 2, 3] "fr" 0 5).2.2.calls =
       (runTwice envDemo [1, 2, 3] "fr" 0 5).1.2.calls) := by decide

/-- C7 (amended): with caching enabled, starting from a fresh service
state, when the first run succeeds with a non-blank translation result
and the second run happens within the cache TTL on byte-identical
audio, the second run returns an identical payload (transcription,
translation, detected language, target — the non-wall-clock fields)
and makes no second Transcribe or Translate provider call; it does,
however, make exactly one language-detection provider call, because
`detect_language` is not cached. The non-blank conditions are needed
because the callers test cached values with Python truthiness
(`if cached:`), so a cached empty string would re-trigger the
provider. -/
theorem C7_idempotent_modulo_detection (env : Env) (audio : List Nat)
    (target raw : String) (n1 n2 : Nat)
    (hcache : env.enableCache = true)
    (htrin : env.transcInit = true) (htlin : env.translInit = true)
    (hvoice : env.hasVoice audio = true)
    (htrans : env.transcribe audio = Except.ok raw)
    (hne : pyStrip (pyStrip raw) ≠ "")
    (hok : env.detect (pyStrip raw) ≠ some target →
      ∃ tr, env.translate (pyStrip raw) target = some tr ∧ pyStrip tr ≠ "")
    (httl : n2 - n1 < env.cacheTTL) :
    (runTwice env audio target n1 n2).1.1.isSome ∧
    (runTwice env audio target n1 n2).2.1 =
      (runTwice env audio target n1 n2).1.1 ∧
    (runTwice env audio target n1 n2).2.2.calls.transcribe =
      (runTwice env audio target n1 n2).1.2.calls.transcribe ∧
    (runTwice env audio target n1 n2).2.2.calls.translate =
      (runTwice env audio target n1 n2).1.2.calls.translate ∧
    (runTwice env audio target n1 n2).2.2.calls.detect =
      (runTwice env audio target n1 n2).1.2.calls.detect + 1 := by
  have hne0 : pyStrip raw ≠ "" := by
    intro h
    apply hne
    rw [h]
    decide
  unfold runTwice
  rcases hdet : env.detect (pyStrip raw) with _ | d
  · obtain ⟨tr, htr2, htrne⟩ := hok (by simp [hdet])
    simp [processChunk, transcribeAudio, retryTransient, transcribeAttempt,
      transcribeCore, processParallel, translateText, retryAll, translateAttempt,
      translateCore, detectLanguage, cacheLookup, cacheInsert, List.find?,
      SvcState.init, hcache, htrin, htlin, hvoice, htrans, hne, hne0, hdet,
      htr2, htrne, httl]
  · by_cases hdt : d = target
    · subst hdt
      simp [processChunk, transcribeAudio, retryTransient, transcribeAttempt,
        transcribeCore, processParallel, translateText, retryAll, translateAttempt,
        translateCore, detectLanguage, cacheLookup, cacheInsert, List.find?,
        SvcState.init, hcache, htrin, htlin, hvoice, htrans, hne, hne0, hdet, httl]
    · obtain ⟨tr, htr2, htrne⟩ := hok (by simp [hdet, hdt])
      simp [processChunk, transcribeAudio, retryTransient, transcribeAttempt,
        transcribeCore, processParallel, translateText, retryAll, translateAttempt,
        translateCore, detectLanguage, cacheLookup, cacheInsert, List.find?,
        SvcState.init, hcache, htrin, htlin, hvoice, htrans, hne, hne0, hdet,
        hdt, htr2, htrne, httl]

/-- C7 witness: a concrete double run with caching enabled — the first
run succeeds, the second returns the same payload with no further
Transcribe or Translate call and exactly one more detection call. -/
theorem C7_witness :
    (runTwice envDemo [1, 2, 3] "fr" 0 5).1.1.isSome ∧
    (runTwice envDemo [1, 2, 3] "fr" 0 5).2.1 =
      (runTwice envDemo [1, 2, 3] "fr" 0 5).1.1 ∧
    (runTwice envDemo [1, 2, 3] "fr" 0 5).2.2.calls.transcribe =
      (runTwice envDemo [1, 2, 3] "fr" 0 5).1.2.calls.transcribe ∧
    (runTwice envDemo [1, 2, 3] "fr" 0 5).2.2.calls.translate =
      (runTwice envDemo [1, 2, 3] "fr" 0 5).1.2.calls.translate ∧
    (runTwice envDemo [1, 2, 3] "fr" 0 5).2.2.calls.detect =
      (runTwice envDemo [1, 2, 3] "fr" 0 5).1.2.calls.detect + 1 :=
  C7_idempotent_modulo_detection envDemo [1, 2, 3] "fr" "hello world" 0 5
    rfl rfl rfl rfl rfl (by decide)
    (fun _ => ⟨"bonjour le monde", rfl, by decide⟩) (by decide)
